import Mathlib

/-!
Verification of the `PhoneField` component
(`src/components/PhoneField/PhoneField.tsx`).

Shallow embedding conventions:
* JavaScript strings are modelled as `List Char` (`Str`); `s.toLowerCase()`
  is `List.map Char.toLower`, and `a.startsWith(b)` is `b.isPrefixOf a`.
* The React component state (the `useState` hooks of `PhoneField`) is the
  record `PhoneFieldState`; each event handler becomes a function from
  state to state.  Inside one event handler, React state setters update the
  state produced for the next render but never the closure variables of the
  current render, so a handler that calls a setter and then reads the same
  state variable reads the pre-event value.  This matters for the `onBlur`
  handler (source lines 143-146): `handleFormat(phoneNumber)` schedules the
  new `formattedPhoneNumber`, and the following
  `setError(formattedPhoneNumber ? null : errorMessage)` still reads the
  value `formattedPhoneNumber` had before the blur event.
* `countries[i]` with a possibly-negative JavaScript index is modelled by
  `countryAt`, which returns `none` (the `undefined` / crash case) for
  out-of-range indices; fallible handlers return `Option PhoneFieldState`.
* An `ActionList` item's `onAction` closure is modelled by the data it
  captures: `allCountries` items capture a registry position
  (`CountryAction.byIndex`), `retrieveCountries` items capture a
  `countryName` resolved through `retrieveCountryIndex` at click time
  (`CountryAction.byName`).
-/

/-- JavaScript strings, modelled as lists of characters. -/
abbrev Str := List Char

/-- `s.toLowerCase()` on a JavaScript string. -/
def toLowerStr (s : Str) : Str := s.map Char.toLower

/-- JavaScript truthiness of a `string | null` value: `null` and the empty
string are falsy, every other string is truthy. -/
def jsTruthy : Option Str → Bool
  | none => false
  | some s => !s.isEmpty

/-- The `Country` interface (source lines 10-23).  `formatter` returns
`none` for JavaScript `null`. -/
structure Country where
  image : Str
  countryName : Str
  countryCode : Str
  areaCodes : List Int := []
  errorMessage : Option Str := none
  formatter : Str → Option Str

/-- What an `ActionList` item's `onAction` closure does when invoked:
items built by `allCountries` call `handleSelected(index)` with the item's
registry position; items built by `retrieveCountries` call
`handleSelected(retrieveCountryIndex(countryName))`. -/
inductive CountryAction where
  | byIndex (i : Nat)
  | byName (name : Str)
deriving DecidableEq

/-- An `ActionList` item: display text plus its `onAction` behaviour. -/
structure CountryOption where
  content : Str
  action : CountryAction
deriving DecidableEq

/-- The `useState` hooks of `PhoneField` (source lines 48-65), gathered
into one record.  `selectedCountry` is an `Int` because
`handleSelected(retrieveCountryIndex(name))` can store the `findIndex`
miss sentinel `-1`. -/
structure PhoneFieldState where
  phoneNumber : Str
  formattedPhoneNumber : Option Str
  popoverActive : Bool
  selectedCountry : Int
  error : Option Str
  searchBarText : Str
  countryOptions : List CountryOption
deriving DecidableEq

/-- JavaScript `countries[i]` for an `Int` index: `none` models the
`undefined` result (and the crash of a subsequent member access). -/
def countryAt (countries : List Country) (i : Int) : Option Country :=
  if i < 0 then none else countries.get? i.toNat

/-- The `allCountries` list (source lines 58-63): note the two spaces
between the image and the country name. -/
def allCountries (countries : List Country) : List CountryOption :=
  countries.enum.map fun ic =>
    { content := ic.2.image ++ [' ', ' '] ++ ic.2.countryName
        ++ [' ', '('] ++ ic.2.countryCode ++ [')']
      action := CountryAction.byIndex ic.1 }

/-- The item built for one country by `retrieveCountries` (source lines
98-103): a single space between the image and the country name, and an
`onAction` that re-resolves the country by name. -/
def mkSearchOption (c : Country) : CountryOption :=
  { content := c.image ++ [' '] ++ c.countryName
      ++ [' ', '('] ++ c.countryCode ++ [')']
    action := CountryAction.byName c.countryName }

/-- `retrieveCountries` (source lines 92-108): keep the countries whose
lower-cased name starts with the lower-cased search text, in registry
order, and build their `ActionList` items. -/
def retrieveCountries (countries : List Country) (search : Str) :
    List CountryOption :=
  (countries.filter fun c =>
    (toLowerStr search).isPrefixOf (toLowerStr c.countryName)).map
    mkSearchOption

/-- `retrieveCountryIndex` (source lines 74-82): `Array.findIndex`, which
returns `-1` when no country has the given name. -/
def retrieveCountryIndex (countries : List Country) (name : Str) : Int :=
  match countries.findIdx? (fun c => c.countryName == name) with
  | some i => Int.ofNat i
  | none => -1

/-- `togglePopoverActive` (source lines 68-72): flip the popover flag,
clear the search text and restore the unfiltered option list.  It runs on
every activator click and on every popover close request. -/
def togglePopoverActive (countries : List Country) (s : PhoneFieldState) :
    PhoneFieldState :=
  { s with
    popoverActive := !s.popoverActive
    searchBarText := []
    countryOptions := allCountries countries }

/-- `handleSelected` (source lines 84-90): store the index (whatever it
is, including `-1`), then toggle the popover. -/
def handleSelected (countries : List Country) (s : PhoneFieldState)
    (index : Int) : PhoneFieldState :=
  togglePopoverActive countries { s with selectedCountry := index }

/-- `handleSearchBar` (source lines 111-117). -/
def handleSearchBar (countries : List Country) (s : PhoneFieldState)
    (query : Str) : PhoneFieldState :=
  { s with
    searchBarText := query
    countryOptions := retrieveCountries countries query }

/-- Invoking an `ActionList` item's `onAction` closure. -/
def runAction (countries : List Country) (a : CountryAction)
    (s : PhoneFieldState) : PhoneFieldState :=
  match a with
  | CountryAction.byIndex i => handleSelected countries s (Int.ofNat i)
  | CountryAction.byName n =>
      handleSelected countries s (retrieveCountryIndex countries n)

/-- The phone `TextField`'s `onChange={setPhoneNumber}` (source line
142). -/
def typePhone (s : PhoneFieldState) (raw : Str) : PhoneFieldState :=
  { s with phoneNumber := raw }

/-- `handleFormat` (source lines 132-133): run the active country's
formatter on the given text.  `none` overall models the crash of
`countries[selectedCountry].formatter` when the index is out of range. -/
def handleFormat (countries : List Country) (s : PhoneFieldState)
    (phoneNumber : Str) : Option PhoneFieldState :=
  (countryAt countries s.selectedCountry).map fun c =>
    { s with formattedPhoneNumber := c.formatter phoneNumber }

/-- The phone `TextField`'s `onBlur` handler (source lines 143-146).
`handleFormat(phoneNumber)` schedules the new formatted value; the
following `setError(formattedPhoneNumber ? null : errorMessage)` reads the
render-time closure variable `formattedPhoneNumber`, i.e. the value from
BEFORE this blur event (`s.formattedPhoneNumber`), not the value just
computed. -/
def onBlur (countries : List Country) (errorMessage : Str)
    (s : PhoneFieldState) : Option PhoneFieldState :=
  (handleFormat countries s s.phoneNumber).map fun s1 =>
    { s1 with
      error := if jsTruthy s.formattedPhoneNumber then none
               else some errorMessage }

/-- The value shown by the phone `TextField`,
`value={formattedPhoneNumber || phoneNumber}` (source line 141): the
JavaScript `||` falls through on `null` AND on the empty string. -/
def displayedPhoneValue (s : PhoneFieldState) : Str :=
  match s.formattedPhoneNumber with
  | some f => if f.isEmpty then s.phoneNumber else f
  | none => s.phoneNumber

/-- The initial hook values (source lines 48-65): empty phone number, no
formatted value, popover initially open exactly when more than one country
was supplied, first country selected, no error, empty search text, full
option list. -/
def initState (countries : List Country) : PhoneFieldState :=
  { phoneNumber := []
    formattedPhoneNumber := none
    popoverActive := decide (countries.length > 1)
    selectedCountry := 0
    error := none
    searchBarText := []
    countryOptions := allCountries countries }

/-- The discrete user events the rendered component can receive. -/
inductive Event where
  | toggle
  | search (q : Str)
  | clickOption (o : CountryOption)
  | typePhone (raw : Str)
  | blur

/-- One event step.  `none` means the event cannot occur in this state:
the activator only carries an `onClick` when `countries.length > 1`
(source lines 122-129), the popover's close request only fires while it is
active, and the search bar and the `ActionList` items are only rendered
inside an active popover. -/
def step (countries : List Country) (errorMessage : Str)
    (s : PhoneFieldState) : Event → Option PhoneFieldState
  | Event.toggle =>
      if countries.length > 1 ∨ s.popoverActive then
        some (togglePopoverActive countries s)
      else none
  | Event.search q =>
      if s.popoverActive then some (handleSearchBar countries s q) else none
  | Event.clickOption o =>
      if s.popoverActive ∧ o ∈ s.countryOptions then
        some (runAction countries o.action s)
      else none
  | Event.typePhone raw => some (typePhone s raw)
  | Event.blur => onBlur countries errorMessage s

/-- States reachable from mount through user events. -/
inductive Reachable (countries : List Country) (errorMessage : Str) :
    PhoneFieldState → Prop where
  | init : Reachable countries errorMessage (initState countries)
  | next (s s' : PhoneFieldState) (e : Event) :
      Reachable countries errorMessage s →
      step countries errorMessage s e = some s' →
      Reachable countries errorMessage s'

/-!
Concrete fixtures used by witnesses and counterexamples.
-/

/-- A ten-digit formatter: accepts exactly ten characters, returning the
input with a `+1` calling-code prepended, and rejects everything else
with `none` (JavaScript `null`). -/
def fmtTen : Str → Option Str := fun x =>
  if x.length == 10 then some ('+' :: '1' :: x) else none

def canada : Country :=
  { image := "[ca]".toList
    countryName := "Canada".toList
    countryCode := "+1".toList
    formatter := fmtTen }

def cameroon : Country :=
  { image := "[cm]".toList
    countryName := "Cameroon".toList
    countryCode := "+237".toList
    formatter := fmtTen }

/-- A two-country registry. -/
def regTwo : List Country := [canada, cameroon]

/-- A one-country registry. -/
def regOne : List Country := [canada]

/-- The field-level error text supplied by the caller. -/
def emsg : Str := "Invalid phone number".toList

/-- A ten-character raw input, accepted by `fmtTen`. -/
def goodTen : Str := "5551234567".toList

/-- A three-character raw input, rejected by `fmtTen`. -/
def badThree : Str := "555".toList

/-!
C4 and C5: the search filter.
-/

/-- C4: `retrieveCountries` returns only countries whose `countryName`,
lower-cased, starts with the lower-cased query (prefix match), each
rendered by `mkSearchOption`, and the result preserves the registry's
original relative order (it is a sublist of the option list of the full
registry). -/
theorem retrieveCountries_sound_and_ordered (countries : List Country)
    (q : Str) :
    (∀ o ∈ retrieveCountries countries q,
      ∃ c, c ∈ countries ∧
        (toLowerStr q).isPrefixOf (toLowerStr c.countryName) = true ∧
        o = mkSearchOption c) ∧
    List.Sublist (retrieveCountries countries q)
      (countries.map mkSearchOption) := by
  constructor
  · intro o ho
    simp only [retrieveCountries, List.mem_map, List.mem_filter] at ho
    obtain ⟨c, ⟨hmem, hpre⟩, rfl⟩ := ho
    exact ⟨c, hmem, hpre, rfl⟩
  · exact List.Sublist.map _ (List.filter_sublist _)

theorem retrieveCountries_sound_and_ordered_witness :
    ∃ c, c ∈ regTwo ∧
      (toLowerStr ("Ca".toList)).isPrefixOf (toLowerStr c.countryName)
        = true ∧
      mkSearchOption canada = mkSearchOption c :=
  (retrieveCountries_sound_and_ordered regTwo ("Ca".toList)).1
    (mkSearchOption canada) (by decide)

/-- C5: the empty query is the identity filter: `retrieveCountries`
returns every registry entry, in order, as its option. -/
theorem retrieveCountries_empty_query (countries : List Country) :
    retrieveCountries countries [] = countries.map mkSearchOption := by
  have h : (countries.filter fun c =>
      (toLowerStr []).isPrefixOf (toLowerStr c.countryName)) = countries :=
    List.filter_eq_self.mpr fun c _ => by simp [toLowerStr]
  unfold retrieveCountries
  rw [h]

/-!
C10: initial popover state.
-/

/-- C10: at mount, the popover is open exactly when the registry holds
more than one country; and with at most one country no reachable state
ever has the popover open (the single-country activator carries no
toggle handler, so the popover stays closed). -/
theorem popoverActive_init_iff (countries : List Country)
    (errorMessage : Str) :
    ((initState countries).popoverActive = true ↔ 1 < countries.length) ∧
    (countries.length ≤ 1 → ∀ s, Reachable countries errorMessage s →
      s.popoverActive = false) := by
  constructor
  · simp [initState]
  · intro hlen s hs
    induction hs with
    | init =>
        have h : ¬(countries.length > 1) := by omega
        simp [initState, h]
    | next s s' e hr hstep ih =>
        cases e with
        | toggle =>
            simp only [step] at hstep
            split at hstep
            · rename_i hcond
              rcases hcond with h | h
              · omega
              · rw [ih] at h; cases h
            · cases hstep
        | search q =>
            simp only [step] at hstep
            split at hstep
            · rename_i hcond; rw [ih] at hcond; cases hcond
            · cases hstep
        | clickOption o =>
            simp only [step] at hstep
            split at hstep
            · rename_i hcond
              obtain ⟨h1, h2⟩ := hcond
              rw [ih] at h1
              exact Bool.noConfusion h1
            · cases hstep
        | typePhone raw =>
            simp only [step, Option.some.injEq] at hstep
            subst hstep
            simpa [typePhone] using ih
        | blur =>
            simp only [step, onBlur] at hstep
            obtain ⟨s1, h1, rfl⟩ := Option.map_eq_some'.mp hstep
            simp only [handleFormat] at h1
            obtain ⟨c, hc, rfl⟩ := Option.map_eq_some'.mp h1
            simpa using ih

theorem popoverActive_init_iff_witness :
    (initState regOne).popoverActive = false :=
  (popoverActive_init_iff regOne emsg).2 (by decide)
    (initState regOne) Reachable.init

/-!
C6: selection by name.
-/

/-- C6: clicking a filtered candidate with a given `countryName` stores,
as `selectedCountry`, the index of that name in the FULL registry (the
first registry position whose `countryName` matches, not the position in
the filtered list) and closes the popover. -/
theorem select_by_name_sets_registry_index (countries : List Country)
    (s : PhoneFieldState) (q name : Str) (o : CountryOption)
    (hopen : s.popoverActive = true)
    (hopts : s.countryOptions = retrieveCountries countries q)
    (ho : o ∈ s.countryOptions)
    (ha : o.action = CountryAction.byName name) :
    ∃ i c, countries.findIdx? (fun c => c.countryName == name) = some i ∧
      countries[i]? = some c ∧ c.countryName = name ∧
      (runAction countries o.action s).selectedCountry = Int.ofNat i ∧
      (runAction countries o.action s).popoverActive = false := by
  rw [hopts] at ho
  simp only [retrieveCountries, List.mem_map, List.mem_filter] at ho
  obtain ⟨c0, ⟨hmem, hpre⟩, rfl⟩ := ho
  simp only [mkSearchOption, CountryAction.byName.injEq] at ha
  have hfind : countries.findIdx? (fun c => c.countryName == name)
      = some (countries.findIdx (fun c => c.countryName == name)) :=
    List.findIdx?_eq_some_of_exists ⟨c0, hmem, by simp [ha]⟩
  obtain ⟨hlt, hp, -⟩ := List.findIdx?_eq_some_iff_getElem.mp hfind
  refine ⟨countries.findIdx (fun c => c.countryName == name),
    countries.get ⟨countries.findIdx (fun c => c.countryName == name), hlt⟩,
    hfind, ?_, ?_, ?_, ?_⟩
  · exact List.getElem?_eq_getElem hlt
  · exact eq_of_beq hp
  · simp [runAction, mkSearchOption, ha, retrieveCountryIndex, hfind,
      handleSelected, togglePopoverActive]
  · simp [runAction, mkSearchOption, ha, retrieveCountryIndex, hfind,
      handleSelected, togglePopoverActive, hopen]

/-- The state after typing a search query into the open popover of a
freshly mounted two-country control. -/
def stateCa : PhoneFieldState :=
  handleSearchBar regTwo (initState regTwo) ("Cam".toList)

theorem select_by_name_sets_registry_index_witness :
    ∃ i c,
      regTwo.findIdx? (fun c => c.countryName == "Cameroon".toList)
        = some i ∧
      regTwo[i]? = some c ∧ c.countryName = "Cameroon".toList ∧
      (runAction regTwo (mkSearchOption cameroon).action stateCa
        ).selectedCountry = Int.ofNat i ∧
      (runAction regTwo (mkSearchOption cameroon).action stateCa
        ).popoverActive = false :=
  select_by_name_sets_registry_index regTwo stateCa ("Cam".toList)
    ("Cameroon".toList) (mkSearchOption cameroon) (by decide) rfl
    (by decide) rfl

/-!
C1, C2, C3: the blur-time format/validate gate.  The `onBlur` handler
computes the error from the render-time (pre-blur) `formattedPhoneNumber`,
so the error always lags the formatting outcome by one commit.
-/

/-- C1 (refuting evaluation): on a fresh control, typing a number the
formatter accepts and blurring stores the formatted number but sets the
error to the field error text instead of clearing it, because the error is
derived from the pre-blur `formattedPhoneNumber` (still `null`). -/
theorem firstCommit_success_still_sets_error :
    canada.formatter goodTen = some ("+15551234567".toList) ∧
    (onBlur regTwo emsg (typePhone (initState regTwo) goodTen)).map
        (fun s => (s.formattedPhoneNumber, s.error))
      = some (some ("+15551234567".toList), some emsg) :=
  ⟨rfl, rfl⟩

/-- C2 (refuting evaluation): after an earlier successful commit, a commit
whose formatter returns `null` stores `null` as the formatted number but
CLEARS the error (the stale pre-blur formatted value was truthy), instead
of setting the field error text. -/
theorem secondCommit_failure_clears_error :
    canada.formatter badThree = none ∧
    ((onBlur regTwo emsg (typePhone (initState regTwo) goodTen)).bind
        (fun s1 => onBlur regTwo emsg (typePhone s1 badThree))).map
        (fun s => (s.formattedPhoneNumber, s.error))
      = some (none, none) :=
  ⟨rfl, rfl⟩

/-- C3 (refuting evaluation): after the first successful commit on a
fresh control, the formatted display value and the validation error are
BOTH non-null, so the two outcomes are not mutually exclusive. -/
theorem firstCommit_breaks_mutual_exclusivity :
    (onBlur regOne emsg (typePhone (initState regOne) goodTen)).map
        (fun s => (s.formattedPhoneNumber, s.error))
      = some (some ("+15551234567".toList), some emsg) :=
  rfl

/-!
C7: selection of an unknown country name.
-/

/-- C7 (refuting evaluation): selecting a name absent from the registry is
not rejected: `findIndex` returns `-1`, `handleSelected` stores it, and
`selectedCountry` becomes an index at which the registry has no entry (so
the button-label lookup `countries[selectedCountry]` would fail). -/
theorem select_unknown_name_stores_invalid_index :
    retrieveCountryIndex regTwo ("Atlantis".toList) = -1 ∧
    (initState regTwo).selectedCountry = 0 ∧
    (runAction regTwo (CountryAction.byName ("Atlantis".toList))
        (initState regTwo)).selectedCountry = -1 ∧
    countryAt regTwo (-1) = none :=
  ⟨rfl, rfl, rfl, rfl⟩

/-!
C8: what closing the popover does to the search state.
-/

/-- C8 counterexample: closing the popover from a state with a non-empty
search query does NOT leave the query and the candidate list unchanged:
both are reset immediately. -/
theorem close_does_not_preserve_search :
    stateCa.popoverActive = true ∧
    (togglePopoverActive regTwo stateCa).popoverActive = false ∧
    (togglePopoverActive regTwo stateCa).searchBarText
      ≠ stateCa.searchBarText ∧
    (togglePopoverActive regTwo stateCa).countryOptions
      ≠ stateCa.countryOptions := by
  decide

/-- C8 amended: `close()` sets the popover flag to false AND eagerly
resets the search text to empty and the candidate list to the full
registry list; open and close share the same toggle handler, so the reset
happens on every toggle, not only on the next open. -/
theorem close_resets_search_and_candidates (countries : List Country)
    (s : PhoneFieldState) (h : s.popoverActive = true) :
    (togglePopoverActive countries s).popoverActive = false ∧
    (togglePopoverActive countries s).searchBarText = [] ∧
    (togglePopoverActive countries s).countryOptions
      = allCountries countries := by
  simp [togglePopoverActive, h]

theorem close_resets_search_and_candidates_witness :
    (togglePopoverActive regTwo stateCa).popoverActive = false ∧
    (togglePopoverActive regTwo stateCa).searchBarText = [] ∧
    (togglePopoverActive regTwo stateCa).countryOptions
      = allCountries regTwo :=
  close_resets_search_and_candidates regTwo stateCa (by decide)

/-!
C9: which value the phone text field displays.
-/

/-- A country whose formatter always succeeds with the empty string. -/
def blankland : Country :=
  { image := "[bl]".toList
    countryName := "Blankland".toList
    countryCode := "+0".toList
    formatter := fun _ => some [] }

def regBlank : List Country := [blankland]

/-- C9 counterexample: when the formatter returns the empty string, the
non-null `formattedPhoneNumber` is NOT displayed: `||` treats the empty
string as falsy and falls through to the raw input. -/
theorem display_skips_empty_formatted_value :
    (onBlur regBlank emsg (typePhone (initState regBlank) badThree)).map
        (fun s => (s.formattedPhoneNumber, displayedPhoneValue s))
      = some (some [], badThree) ∧
    badThree ≠ [] :=
  ⟨rfl, by decide⟩

/-- C9 amended: the displayed phone value equals `formattedPhoneNumber`
when that is non-null AND non-empty, and equals the raw input
`phoneNumber` when it is null or the empty string. -/
theorem displayed_value_follows_truthiness (s : PhoneFieldState) :
    (∀ f, s.formattedPhoneNumber = some f → f ≠ [] →
      displayedPhoneValue s = f) ∧
    (s.formattedPhoneNumber = none →
      displayedPhoneValue s = s.phoneNumber) ∧
    (s.formattedPhoneNumber = some [] →
      displayedPhoneValue s = s.phoneNumber) := by
  refine ⟨?_, ?_, ?_⟩
  · intro f hf hne
    cases f with
    | nil => exact absurd rfl hne
    | cons a t => simp [displayedPhoneValue, hf]
  · intro hf
    simp [displayedPhoneValue, hf]
  · intro hf
    simp [displayedPhoneValue, hf]

/-- A state whose formatted value is a non-empty string. -/
def stateShown : PhoneFieldState :=
  { initState regTwo with
    phoneNumber := badThree
    formattedPhoneNumber := some goodTen }

theorem displayed_value_follows_truthiness_witness :
    displayedPhoneValue stateShown = goodTen :=
  (displayed_value_follows_truthiness stateShown).1 goodTen rfl (by decide)
